import Mathlib

/-!
Verification of the Taskflow backend's tool-calling core.

The definitions below are a shallow embedding of the Python sources under
`src/backend/src`: the six MCP tool handlers (`src/tools/*.py`), the tool
registry and executor (`src/tools/mcp_server.py`,
`src/services/agent_service.py`), message sequence numbering
(`src/api/chat.py`, `src/services/conversation_service.py`) and the
streaming chat generator (`src/api/chat.py`).  The relational task store is
modelled as a list of rows; a session that raises is modelled by the
`failure` field of `DBState`; `datetime.utcnow()` is passed in as an
explicit `Nat` tick.  Python dictionaries returned by the handlers are
modelled by the `ToolResult` structure, where an absent key is `none`.
-/

set_option maxHeartbeats 1000000

namespace Taskflow

/-- A row of the `tasks` table (`src/backend/src/models/task.py`). -/
structure Task where
  id : Nat
  title : String
  description : Option String
  completed : Bool
  user_id : Nat
  created_at : Nat
  updated_at : Nat
deriving Repr, DecidableEq

/-- `datetime.isoformat()`, modelled as an injective rendering of the tick. -/
def isoformat (n : Nat) : String := toString n

/-- The task sub-dictionary each handler returns on success
(fields `id`, `title`, `description`, `completed`, `created_at`, `updated_at`;
note that `user_id` is not echoed). -/
structure TaskJson where
  id : Nat
  title : String
  description : Option String
  completed : Bool
  created_at : String
  updated_at : String
deriving Repr, DecidableEq

/-- Rendering of a task row into the returned dictionary. -/
def taskToJson (t : Task) : TaskJson :=
  { id := t.id, title := t.title, description := t.description,
    completed := t.completed, created_at := isoformat t.created_at,
    updated_at := isoformat t.updated_at }

/-- The dictionary a tool handler returns.  Every key any of the six
handlers can emit is a field; a key absent from the Python dict is `none`. -/
structure ToolResult where
  status : Option String := none
  error : Option String := none
  task : Option TaskJson := none
  tasks : Option (List TaskJson) := none
  total : Option Nat := none
  completed_count : Option Nat := none
  pending_count : Option Nat := none
  action : Option String := none
  message : Option String := none
  deleted_task_id : Option Int := none
deriving Repr, DecidableEq

/-- The state behind `MCPContext.get_session()`: the rows of the `tasks`
table, plus `failure = some e` when any session operation raises an
exception whose `str` is `e` (caught by each handler's `except` clause). -/
structure DBState where
  tasks : List Task
  failure : Option String := none
deriving Repr, DecidableEq

/-- `str.strip()` of Python: drop leading and trailing whitespace. -/
def pyStrip (s : String) : String :=
  String.mk (((s.toList.dropWhile Char.isWhitespace).reverse.dropWhile Char.isWhitespace).reverse)

/-- An error dictionary `\x7b"status": "error", "error": msg\x7d`. -/
def errResult (msg : String) : ToolResult :=
  { status := some "error", error := some msg }

/-- The `except Exception as e` branch shared by the handlers:
`\x7b"status": "error", "error": f"Database error: \x7bstr(e)\x7d"\x7d`. -/
def dbError (e : String) : ToolResult :=
  errResult ("Database error: " ++ e)

/-- The `WHERE Task.id == task_id AND Task.user_id == ctx.user_id` filter
every single-task handler uses. -/
def taskMatches (task_id : Int) (uid : Nat) (t : Task) : Bool :=
  ((t.id : Int) == task_id) && (t.user_id == uid)

/-- Store-assigned primary key for a fresh row (monotone, hence positive). -/
def nextTaskId (tasks : List Task) : Nat :=
  (tasks.foldr (fun t a => max t.id a) 0) + 1

/-- Replace the object found by `.first()` (the first matching row). -/
def replaceFirst (p : Task → Bool) (t' : Task) : List Task → List Task
  | [] => []
  | u :: us => if p u then t' :: us else u :: replaceFirst p t' us

/-- Delete the object found by `.first()` (the first matching row). -/
def removeFirst (p : Task → Bool) : List Task → List Task
  | [] => []
  | u :: us => if p u then us else u :: removeFirst p us

/-- `list_tasks_internal` (`src/backend/src/tools/list_tasks.py`).
On success the returned dictionary has keys `tasks`, `total`,
`completed_count`, `pending_count` and no `status` key. -/
def list_tasks_internal (db : DBState) (uid : Nat) : ToolResult :=
  match db.failure with
  | some e =>
    { status := some "error", error := some ("Database error: " ++ e),
      tasks := some [], total := some 0,
      completed_count := some 0, pending_count := some 0 }
  | none =>
    let mine := db.tasks.filter (fun t => t.user_id == uid)
    { tasks := some (mine.map taskToJson), total := some mine.length,
      completed_count := some ((mine.filter (fun t => t.completed)).length),
      pending_count := some ((mine.filter (fun t => !t.completed)).length) }

/-- `create_task_internal` (`src/backend/src/tools/create_task.py`).
Returns the result dictionary and the store after the call. -/
def create_task_internal (db : DBState) (uid : Nat) (title : String)
    (description : String) (now : Nat) : ToolResult × DBState :=
  if title = "" ∨ pyStrip title = "" then (errResult "Title is required", db)
  else
    let title := pyStrip title
    if title.length > 200 then (errResult "Title exceeds 200 characters", db)
    else if description ≠ "" ∧ description.length > 2000 then
      (errResult "Description exceeds 2000 characters", db)
    else
      match db.failure with
      | some e => (dbError e, db)
      | none =>
        let task : Task :=
          { id := nextTaskId db.tasks, title := title,
            description := if description = "" then none else some description,
            completed := false, user_id := uid,
            created_at := now, updated_at := now }
        ({ status := some "success", task := some (taskToJson task) },
         { db with tasks := db.tasks ++ [task] })

/-- `get_task_internal` (`src/backend/src/tools/get_task.py`). -/
def get_task_internal (db : DBState) (uid : Nat) (task_id : Int) : ToolResult :=
  if task_id ≤ 0 then errResult "Invalid task ID"
  else
    match db.failure with
    | some e => dbError e
    | none =>
      match db.tasks.find? (taskMatches task_id uid) with
      | none => errResult "Task not found"
      | some t => { status := some "success", task := some (taskToJson t) }

/-- The leading validation of `update_task_internal`: the early-return error,
if any, produced by its argument checks (in source order). -/
def update_validate : Option String → Option String → Option ToolResult
  | none, none => some (errResult "No fields provided to update")
  | some s, od =>
    if pyStrip s = "" then some (errResult "Title cannot be empty")
    else if (pyStrip s).length > 200 then some (errResult "Title exceeds 200 characters")
    else
      match od with
      | some d => if d.length > 2000 then some (errResult "Description exceeds 2000 characters") else none
      | none => none
  | none, some d =>
    if d.length > 2000 then some (errResult "Description exceeds 2000 characters") else none

/-- `update_task_internal` (`src/backend/src/tools/update_task.py`). -/
def update_task_internal (db : DBState) (uid : Nat) (task_id : Int)
    (title description : Option String) (now : Nat) : ToolResult × DBState :=
  match update_validate title description with
  | some err => (err, db)
  | none =>
    match db.failure with
    | some e => (dbError e, db)
    | none =>
      match db.tasks.find? (taskMatches task_id uid) with
      | none => (errResult "Task not found", db)
      | some t =>
        let t' : Task :=
          { t with
            title := match title with | some s => pyStrip s | none => t.title,
            description := match description with | some d => some d | none => t.description,
            updated_at := now }
        ({ status := some "success", task := some (taskToJson t') },
         { db with tasks := replaceFirst (taskMatches task_id uid) t' db.tasks })

/-- `mark_complete_internal` (`src/backend/src/tools/mark_complete.py`):
finds the task and toggles its `completed` flag. -/
def mark_complete_internal (db : DBState) (uid : Nat) (task_id : Int)
    (now : Nat) : ToolResult × DBState :=
  match db.failure with
  | some e => (dbError e, db)
  | none =>
    match db.tasks.find? (taskMatches task_id uid) with
    | none => (errResult "Task not found", db)
    | some t =>
      let t' : Task := { t with completed := !t.completed, updated_at := now }
      ({ status := some "success",
         action := some (if t'.completed then "marked_complete" else "marked_incomplete"),
         task := some (taskToJson t') },
       { db with tasks := replaceFirst (taskMatches task_id uid) t' db.tasks })

/-- `delete_task_internal` (`src/backend/src/tools/delete_task.py`). -/
def delete_task_internal (db : DBState) (uid : Nat) (task_id : Int) :
    ToolResult × DBState :=
  match db.failure with
  | some e => (dbError e, db)
  | none =>
    match db.tasks.find? (taskMatches task_id uid) with
    | none => (errResult "Task not found", db)
    | some t =>
      ({ status := some "success",
         message := some ("Task '" ++ t.title ++ "' deleted successfully"),
         deleted_task_id := some task_id },
       { db with tasks := removeFirst (taskMatches task_id uid) db.tasks })

/-- The arguments the Completion Provider supplies for a tool call, already
JSON-decoded (`arguments` of `AgentService.execute_tool`); a key the model
did not send is `none`. -/
structure ToolArgs where
  task_id : Option Int := none
  title : Option String := none
  description : Option String := none
deriving Repr, DecidableEq

/-- The names registered with the MCP server at import time
(`src/backend/src/tools/__init__.py`). -/
def mcpToolNames : List String :=
  ["list_tasks", "create_task", "mark_complete", "update_task", "delete_task", "get_task"]

/-- Outcome of `AgentService.execute_tool`: either a returned
result (with the store after the call), or an exception that propagates to
the caller. -/
inductive ExecOutcome where
  | returned (r : ToolResult) (db : DBState)
  | raised (msg : String)
deriving Repr, DecidableEq

/-- The `TypeError` Python raises when a required positional argument is
missing from `**arguments`; `execute_tool`'s `try` converts it to
`\x7b"status": "error", "error": str(e)\x7d`. -/
def missingArg (funcName argName : String) : ToolResult :=
  errResult (funcName ++ "() missing 1 required positional argument: '" ++ argName ++ "'")

/-- Dispatch of a registered tool to its handler with the decoded
arguments (`await tool_func(self.mcp_context, **arguments)`). -/
def invoke_tool (db : DBState) (uid : Nat) (name : String) (args : ToolArgs)
    (now : Nat) : ToolResult × DBState :=
  if name = "list_tasks" then (list_tasks_internal db uid, db)
  else if name = "create_task" then
    match args.title with
    | none => (missingArg "create_task_internal" "title", db)
    | some t => create_task_internal db uid t (args.description.getD "") now
  else if name = "mark_complete" then
    match args.task_id with
    | none => (missingArg "mark_complete_internal" "task_id", db)
    | some tid => mark_complete_internal db uid tid now
  else if name = "update_task" then
    match args.task_id with
    | none => (missingArg "update_task_internal" "task_id", db)
    | some tid => update_task_internal db uid tid args.title args.description now
  else if name = "delete_task" then
    match args.task_id with
    | none => (missingArg "delete_task_internal" "task_id", db)
    | some tid => delete_task_internal db uid tid
  else if name = "get_task" then
    match args.task_id with
    | none => (missingArg "get_task_internal" "task_id", db)
    | some tid => (get_task_internal db uid tid, db)
  else (errResult "unreachable", db)

/-- `AgentService.execute_tool` (`src/backend/src/services/agent_service.py`):
`mcp_server.get_tool(tool_name)` and, when no tool of that name is
registered, `raise ValueError(f"Tool '\x7btool_name\x7d' not found")` — the
raise sits before the `try`, so it is not converted to a result and
propagates to `process_message`. -/
def execute_tool (db : DBState) (uid : Nat) (tool_name : String)
    (args : ToolArgs) (now : Nat) : ExecOutcome :=
  if mcpToolNames.contains tool_name then
    let rdb := invoke_tool db uid tool_name args now
    .returned rdb.1 rdb.2
  else
    .raised ("Tool '" ++ tool_name ++ "' not found")

/-- `MessageRole` (`src/backend/src/models/message.py`). -/
inductive MessageRole where
  | user
  | assistant
deriving Repr, DecidableEq

/-- A row of the `messages` table (`src/backend/src/models/message.py`). -/
structure Message where
  id : Nat
  conversation_id : Nat
  role : MessageRole
  content : String
  sequence_number : Nat
  created_at : Nat
  deleted_at : Option Nat := none
deriving Repr, DecidableEq

/-- The rows selected by `WHERE conversation_id == cid AND deleted_at IS NULL`. -/
def nonDeleted (msgs : List Message) (cid : Nat) : List Message :=
  msgs.filter (fun m => m.conversation_id == cid && m.deleted_at == none)

/-- The rows selected by `WHERE conversation_id == cid` (no deletion filter). -/
def inConversation (msgs : List Message) (cid : Nat) : List Message :=
  msgs.filter (fun m => m.conversation_id == cid)

/-- Sequence numbers of the non-deleted messages of a conversation, in row order. -/
def seqNumbers (msgs : List Message) (cid : Nat) : List Nat :=
  (nonDeleted msgs cid).map (fun m => m.sequence_number)

/-- The sequence number the chat endpoint assigns
(`src/backend/src/api/chat.py`): the count of non-deleted messages of the
conversation, plus one. -/
def chatNextSequenceNumber (msgs : List Message) (cid : Nat) : Nat :=
  (nonDeleted msgs cid).length + 1

/-- `SELECT max(sequence_number)` over the given rows; `0` plays the role of
SQL's `NULL` result on an empty selection (sequence numbers are positive). -/
def maxSeq (msgs : List Message) : Nat :=
  msgs.foldr (fun m a => max m.sequence_number a) 0

/-- `ConversationService._get_next_sequence_number`
(`src/backend/src/services/conversation_service.py`): highest existing
sequence number in the conversation plus one, `1` when there are no rows. -/
def getNextSequenceNumber (msgs : List Message) (cid : Nat) : Nat :=
  maxSeq (inConversation msgs cid) + 1

/-- The message-persistence slice of one turn of the `chat` endpoint
(`src/backend/src/api/chat.py`): the user message is stored with
`next_sequence_number` and the assistant message with
`next_sequence_number + 1`. -/
def chatTurnPersist (msgs : List Message) (cid : Nat)
    (userContent assistantContent : String) (userMsgId asstMsgId : Nat)
    (t1 t2 : Nat) : List Message :=
  let seqU := chatNextSequenceNumber msgs cid
  let userMsg : Message :=
    { id := userMsgId, conversation_id := cid, role := .user,
      content := userContent, sequence_number := seqU, created_at := t1 }
  let asstMsg : Message :=
    { id := asstMsgId, conversation_id := cid, role := .assistant,
      content := assistantContent, sequence_number := seqU + 1, created_at := t2 }
  (msgs ++ [userMsg]) ++ [asstMsg]

/-- What `AgentService.process_message` hands back to the endpoint: the
final text and the (serialised) tool-call metadata, `none` when no tools ran. -/
structure AgentResult where
  content : String
  tool_calls : Option String := none
deriving Repr, DecidableEq

/-- One server-sent event of the streaming endpoint, with absent JSON keys
as `none`. -/
structure StreamEvent where
  content : Option String := none
  done : Bool := false
  error : Option String := none
  conversation_id : Option Nat := none
  message_id : Option Nat := none
  tool_calls : Option (Option String) := none
  timestamp : Option String := none
deriving Repr, DecidableEq

/-- `content[i:i+10]` chunking of the streaming endpoint (`chunk_size = 10`). -/
def chunkList : List Char → List (List Char)
  | [] => []
  | c :: cs => (c :: cs.take 9) :: chunkList (cs.drop 9)
termination_by l => l.length
decreasing_by simp; omega

/-- The `for i in range(0, len(content), chunk_size)` loop body of
`chat_stream`, as the list of emitted chunks. -/
def chunkContent (s : String) : List String :=
  (chunkList s.toList).map (fun cs => String.mk cs)

/-- The service class the streaming generator instantiates:
`agent_service = CohereAgentService(user_id=user_id)` in `chat_stream`. -/
def chatStreamServiceName : String := "CohereAgentService"

/-- The service names bound in the module scope of
`src/backend/src/api/chat.py`: its only service import is
`from ..services.agent_service import AgentService`. -/
def chatModuleImportedNames : List String := ["AgentService"]

/-- The event generator of the `chat_stream` endpoint
(`src/backend/src/api/chat.py`), for a request against an existing
conversation the caller owns.  The user message is persisted first; then
the generator evaluates the name `CohereAgentService`, which resolves only
if the module imported it — otherwise Python raises
`NameError: name 'CohereAgentService' is not defined`, the surrounding
`except Exception` catches it, and the one event
`\x7b"error": str(e), "done": true\x7d` is emitted.  On the resolved path the
final content is chunked, the assistant message persisted, and the
terminal metadata event emitted.  Returns the events and the message rows
after the request. -/
def chat_stream_event_generator (msgs : List Message) (cid : Nat)
    (userContent : String) (resp : AgentResult) (userMsgId asstMsgId : Nat)
    (t1 t2 : Nat) : List StreamEvent × List Message :=
  let seqU := chatNextSequenceNumber msgs cid
  let userMsg : Message :=
    { id := userMsgId, conversation_id := cid, role := .user,
      content := userContent, sequence_number := seqU, created_at := t1 }
  let msgs1 := msgs ++ [userMsg]
  if chatModuleImportedNames.contains chatStreamServiceName then
    let chunkEvents := (chunkContent resp.content).map
      (fun c => ({ content := some c, done := false } : StreamEvent))
    let asstMsg : Message :=
      { id := asstMsgId, conversation_id := cid, role := .assistant,
        content := resp.content, sequence_number := seqU + 1, created_at := t2 }
    (chunkEvents ++
      [{ done := true, conversation_id := some cid, message_id := some asstMsgId,
         tool_calls := some resp.tool_calls, timestamp := some (isoformat t2) }],
     msgs1 ++ [asstMsg])
  else
    ([{ error := some ("name '" ++ chatStreamServiceName ++ "' is not defined"),
        done := true }], msgs1)

/-! ## Helper lemmas -/

theorem dropWhile_replicate_of_not (c : Char) (h : Char.isWhitespace c = false) (n : Nat) :
    (List.replicate n c).dropWhile Char.isWhitespace = List.replicate n c := by
  cases n with
  | zero => rfl
  | succ m => simp [List.replicate_succ, List.dropWhile_cons, h]

theorem pyStrip_replicate (c : Char) (h : Char.isWhitespace c = false) (n : Nat) :
    pyStrip (String.mk (List.replicate n c)) = String.mk (List.replicate n c) := by
  simp [pyStrip, dropWhile_replicate_of_not c h, List.reverse_replicate]

theorem length_mk (l : List Char) : (String.mk l).length = l.length := rfl

theorem update_validate_some {ot od : Option String} {err : ToolResult}
    (h : update_validate ot od = some err) : ∃ msg, err = errResult msg := by
  rcases ot with _ | s <;> rcases od with _ | d
  · exact ⟨"No fields provided to update", (Option.some_inj.mp h).symm⟩
  · simp only [update_validate] at h
    split at h
    · exact ⟨_, (Option.some_inj.mp h).symm⟩
    · simp at h
  · simp only [update_validate] at h
    split at h
    · exact ⟨_, (Option.some_inj.mp h).symm⟩
    · split at h
      · exact ⟨_, (Option.some_inj.mp h).symm⟩
      · simp at h
  · simp only [update_validate] at h
    split at h
    · exact ⟨_, (Option.some_inj.mp h).symm⟩
    · split at h
      · exact ⟨_, (Option.some_inj.mp h).symm⟩
      · split at h
        · exact ⟨_, (Option.some_inj.mp h).symm⟩
        · simp at h

theorem taskMatches_iff {tid : Int} {uid : Nat} {t : Task} :
    taskMatches tid uid t = true ↔ (t.id : Int) = tid ∧ t.user_id = uid := by
  simp [taskMatches]

theorem find?_eq_none_of_no_owner {tasks : List Task} {u1 : Nat} {tid : Int}
    (hnot : ∀ t ∈ tasks, (t.id : Int) = tid → t.user_id ≠ u1) :
    tasks.find? (taskMatches tid u1) = none := by
  rw [List.find?_eq_none]
  intro t ht hmatch
  rcases taskMatches_iff.mp hmatch with ⟨hid, huid⟩
  exact hnot t ht hid huid

theorem replaceFirst_eq_set {p : Task → Bool} (t' : Task) {l : List Task} {t : Task}
    (h : l.find? p = some t) :
    ∃ j, l[j]? = some t ∧ replaceFirst p t' l = l.set j t' := by
  induction l with
  | nil => simp [List.find?] at h
  | cons u us ih =>
    by_cases hu : p u
    · rw [List.find?_cons_of_pos _ hu] at h
      obtain rfl : u = t := Option.some_inj.mp h
      exact ⟨0, by simp, by simp [replaceFirst, hu]⟩
    · rw [List.find?_cons_of_neg _ hu] at h
      obtain ⟨j, hj1, hj2⟩ := ih h
      refine ⟨j + 1, by simpa using hj1, ?_⟩
      simp [replaceFirst, hu, hj2]

theorem find?_replaceFirst_self {p : Task → Bool} {t' : Task} (hpt : p t' = true)
    {l : List Task} (h : (l.find? p).isSome) :
    (replaceFirst p t' l).find? p = some t' := by
  induction l with
  | nil => simp [List.find?] at h
  | cons u us ih =>
    by_cases hu : p u
    · simp [replaceFirst, hu, List.find?_cons_of_pos _ hpt]
    · rw [List.find?_cons_of_neg _ hu] at h
      simpa [replaceFirst, hu, List.find?_cons_of_neg _ hu] using ih h

/-! ## C1 -/

/-- C1: per-user isolation.  For a store whose rows with id `tid` all
belong to users other than `u1` (in particular when `tid` is a task of a
different user `u2`, or when no row has id `tid` at all):
`list_tasks` as `u1` selects exactly the rows owned by `u1` — a row of
another owner is never among them — and `get_task`, `update_task` (under
any arguments passing validation), `mark_complete` and `delete_task` as
`u1` on `tid` return exactly the error result "Task not found", the one
they return for a wholly nonexistent id, and leave the store untouched. -/
theorem c1_per_user_isolation (db : DBState) (u1 : Nat) (tid : Int) (now : Nat)
    (hok : db.failure = none) (hpos : 0 < tid)
    (hnot : ∀ t ∈ db.tasks, (t.id : Int) = tid → t.user_id ≠ u1) :
    ((list_tasks_internal db u1).tasks
        = some ((db.tasks.filter (fun t => t.user_id == u1)).map taskToJson)
      ∧ ∀ t ∈ db.tasks, t.user_id ≠ u1 → t ∉ db.tasks.filter (fun t => t.user_id == u1))
  ∧ get_task_internal db u1 tid = errResult "Task not found"
  ∧ (∀ otitle odesc, update_validate otitle odesc = none →
      update_task_internal db u1 tid otitle odesc now = (errResult "Task not found", db))
  ∧ mark_complete_internal db u1 tid now = (errResult "Task not found", db)
  ∧ delete_task_internal db u1 tid = (errResult "Task not found", db) := by
  obtain ⟨tasks, fl⟩ := db
  cases hok
  have hfind : tasks.find? (taskMatches tid u1) = none := find?_eq_none_of_no_owner hnot
  have h0 : ¬ tid ≤ 0 := by omega
  refine ⟨⟨rfl, ?_⟩, ?_, ?_, ?_, ?_⟩
  · intro t _ hne hmem
    have := (List.mem_filter.mp hmem).2
    simp only [beq_iff_eq] at this
    exact hne this
  · simp [get_task_internal, hfind, h0]
  · intro ot od hv
    simp [update_task_internal, hv, hfind]
  · simp [mark_complete_internal, hfind]
  · simp [delete_task_internal, hfind]

/-- Witness for C1: user 1 operating on a task owned by user 2. -/
theorem c1_per_user_isolation_witness :
    ((list_tasks_internal ⟨[⟨1, "t", none, false, 2, 0, 0⟩], none⟩ 1).tasks
        = some ((([⟨1, "t", none, false, 2, 0, 0⟩] : List Task).filter
            (fun t => t.user_id == 1)).map taskToJson)
      ∧ ∀ t ∈ ([⟨1, "t", none, false, 2, 0, 0⟩] : List Task), t.user_id ≠ 1 →
          t ∉ ([⟨1, "t", none, false, 2, 0, 0⟩] : List Task).filter (fun t => t.user_id == 1))
  ∧ get_task_internal ⟨[⟨1, "t", none, false, 2, 0, 0⟩], none⟩ 1 1 = errResult "Task not found"
  ∧ (∀ otitle odesc, update_validate otitle odesc = none →
      update_task_internal ⟨[⟨1, "t", none, false, 2, 0, 0⟩], none⟩ 1 1 otitle odesc 0
        = (errResult "Task not found", ⟨[⟨1, "t", none, false, 2, 0, 0⟩], none⟩))
  ∧ mark_complete_internal ⟨[⟨1, "t", none, false, 2, 0, 0⟩], none⟩ 1 1 0
      = (errResult "Task not found", ⟨[⟨1, "t", none, false, 2, 0, 0⟩], none⟩)
  ∧ delete_task_internal ⟨[⟨1, "t", none, false, 2, 0, 0⟩], none⟩ 1 1
      = (errResult "Task not found", ⟨[⟨1, "t", none, false, 2, 0, 0⟩], none⟩) :=
  c1_per_user_isolation ⟨[⟨1, "t", none, false, 2, 0, 0⟩], none⟩ 1 1 0 rfl
    (by decide) (by decide)

/-! ## C6 -/

/-- C6: the toggle law of `mark_complete`.  A successful call returns the
task with its completion flag inverted relative to the stored value, and a
second call on the same task returns the flag — in the result and in the
store — to its original value (only `updated_at` ends different). -/
theorem c6_mark_complete_toggle (db : DBState) (uid : Nat) (tid : Int)
    (n1 n2 : Nat) (t : Task) (hok : db.failure = none)
    (hfind : db.tasks.find? (taskMatches tid uid) = some t) :
    ((mark_complete_internal db uid tid n1).1).status = some "success"
  ∧ ((mark_complete_internal db uid tid n1).1).task.map TaskJson.completed
      = some (!t.completed)
  ∧ ((mark_complete_internal (mark_complete_internal db uid tid n1).2 uid tid n2).1).task.map
      TaskJson.completed = some t.completed
  ∧ (mark_complete_internal
        (mark_complete_internal db uid tid n1).2 uid tid n2).2.tasks.find?
      (taskMatches tid uid) = some { t with updated_at := n2 } := by
  obtain ⟨tasks, fl⟩ := db
  cases hok
  obtain ⟨i0, s0, d0, c0, u0, ca0, ua0⟩ := t
  have hpt : taskMatches tid uid ⟨i0, s0, d0, c0, u0, ca0, ua0⟩ = true :=
    List.find?_some hfind
  have hpt1 : taskMatches tid uid ⟨i0, s0, d0, !c0, u0, ca0, n1⟩ = true := hpt
  have hpt2 : taskMatches tid uid ⟨i0, s0, d0, !!c0, u0, ca0, n2⟩ = true := hpt
  have hfind2 : (replaceFirst (taskMatches tid uid)
      ⟨i0, s0, d0, !c0, u0, ca0, n1⟩ tasks).find? (taskMatches tid uid)
      = some ⟨i0, s0, d0, !c0, u0, ca0, n1⟩ :=
    find?_replaceFirst_self hpt1 (by rw [hfind]; rfl)
  refine ⟨?_, ?_, ?_, ?_⟩
  · simp [mark_complete_internal, hfind]
  · simp [mark_complete_internal, hfind, taskToJson]
  · simp [mark_complete_internal, hfind, hfind2, taskToJson, Bool.not_not]
  · simp only [mark_complete_internal, hfind, hfind2]
    have hkey := find?_replaceFirst_self hpt2 (by rw [hfind2]; rfl)
    simpa [Bool.not_not] using hkey

/-- Witness for C6 on a concrete one-task store. -/
theorem c6_mark_complete_toggle_witness :
    ((mark_complete_internal ⟨[⟨1, "t", none, false, 1, 0, 0⟩], none⟩ 1 1 5).1).status
        = some "success"
  ∧ ((mark_complete_internal ⟨[⟨1, "t", none, false, 1, 0, 0⟩], none⟩ 1 1 5).1).task.map
        TaskJson.completed = some (!false)
  ∧ ((mark_complete_internal
        (mark_complete_internal ⟨[⟨1, "t", none, false, 1, 0, 0⟩], none⟩ 1 1 5).2
        1 1 9).1).task.map TaskJson.completed = some false
  ∧ (mark_complete_internal
        (mark_complete_internal ⟨[⟨1, "t", none, false, 1, 0, 0⟩], none⟩ 1 1 5).2
        1 1 9).2.tasks.find? (taskMatches 1 1)
      = some { (⟨1, "t", none, false, 1, 0, 0⟩ : Task) with updated_at := 9 } :=
  c6_mark_complete_toggle ⟨[⟨1, "t", none, false, 1, 0, 0⟩], none⟩ 1 1 5 9
    ⟨1, "t", none, false, 1, 0, 0⟩ rfl (by decide)

/-! ## C10 -/

/-- C10: the frame property of `mark_complete`.  A successful call leaves
the store the same length, rewrites the found row `t` (at its position) to
`t` with only `completed` inverted and `updated_at` set to the call time —
`id`, `title`, `description`, `created_at` and `user_id` are carried over
from `t` unchanged — and leaves every other row of every user untouched. -/
theorem c10_mark_complete_frame (db : DBState) (uid : Nat) (tid : Int)
    (now : Nat) (t : Task) (hok : db.failure = none)
    (hfind : db.tasks.find? (taskMatches tid uid) = some t) :
    ((mark_complete_internal db uid tid now).1).status = some "success"
  ∧ (mark_complete_internal db uid tid now).2.tasks.length = db.tasks.length
  ∧ ∃ j : Nat, db.tasks[j]? = some t
      ∧ (mark_complete_internal db uid tid now).2.tasks[j]?
          = some { t with completed := !t.completed, updated_at := now }
      ∧ ∀ i, i ≠ j →
          (mark_complete_internal db uid tid now).2.tasks[i]? = db.tasks[i]? := by
  obtain ⟨tasks, fl⟩ := db
  cases hok
  obtain ⟨j, hj1, hj2⟩ :=
    replaceFirst_eq_set ({ t with completed := !t.completed, updated_at := now }) hfind
  have hj1' : tasks[j]? = some t := hj1
  have hj2' : replaceFirst (taskMatches tid uid)
      { t with completed := !t.completed, updated_at := now } tasks
      = tasks.set j { t with completed := !t.completed, updated_at := now } := hj2
  have hjlt : j < tasks.length := by
    by_contra hge
    rw [List.getElem?_eq_none (by omega)] at hj1'
    exact Option.noConfusion hj1'
  refine ⟨by simp [mark_complete_internal, hfind], ?_, j, hj1', ?_, ?_⟩
  · simp [mark_complete_internal, hfind, hj2']
  · simp [mark_complete_internal, hfind, hj2', List.getElem?_set, hjlt]
  · intro i hij
    have hne : ¬ j = i := fun h => hij h.symm
    simp [mark_complete_internal, hfind, hj2', List.getElem?_set, hne]

/-- Witness for C10 on a concrete two-task store. -/
theorem c10_mark_complete_frame_witness :
    ((mark_complete_internal
        ⟨[⟨1, "a", none, false, 1, 0, 0⟩, ⟨2, "b", none, true, 1, 0, 0⟩], none⟩
        1 2 7).1).status = some "success"
  ∧ (mark_complete_internal
        ⟨[⟨1, "a", none, false, 1, 0, 0⟩, ⟨2, "b", none, true, 1, 0, 0⟩], none⟩
        1 2 7).2.tasks.length
      = ([⟨1, "a", none, false, 1, 0, 0⟩, ⟨2, "b", none, true, 1, 0, 0⟩] : List Task).length
  ∧ ∃ j : Nat, ([⟨1, "a", none, false, 1, 0, 0⟩, ⟨2, "b", none, true, 1, 0, 0⟩] : List Task)[j]?
          = some ⟨2, "b", none, true, 1, 0, 0⟩
      ∧ (mark_complete_internal
            ⟨[⟨1, "a", none, false, 1, 0, 0⟩, ⟨2, "b", none, true, 1, 0, 0⟩], none⟩
            1 2 7).2.tasks[j]?
          = some { (⟨2, "b", none, true, 1, 0, 0⟩ : Task) with
              completed := !true, updated_at := 7 }
      ∧ ∀ i, i ≠ j →
          (mark_complete_internal
              ⟨[⟨1, "a", none, false, 1, 0, 0⟩, ⟨2, "b", none, true, 1, 0, 0⟩], none⟩
              1 2 7).2.tasks[i]?
            = ([⟨1, "a", none, false, 1, 0, 0⟩, ⟨2, "b", none, true, 1, 0, 0⟩] : List Task)[i]? :=
  c10_mark_complete_frame
    ⟨[⟨1, "a", none, false, 1, 0, 0⟩, ⟨2, "b", none, true, 1, 0, 0⟩], none⟩
    1 2 7 ⟨2, "b", none, true, 1, 0, 0⟩ rfl (by decide)

/-! ## C7 -/

/-- C7: an `update_task` call that supplies neither a title nor a
description returns the error result "No fields provided to update" and
performs no mutation: the returned store is exactly the store before the
call, every task row (including its `updated_at` timestamp) untouched. -/
theorem c7_empty_update_is_error_and_no_mutation (db : DBState) (uid : Nat)
    (tid : Int) (now : Nat) :
    update_task_internal db uid tid none none now
      = (errResult "No fields provided to update", db) := rfl

/-! ## C2 -/

/-- C2 (code bug): executing a tool name absent from the registry does not
yield a structured error result — `AgentService.execute_tool` raises
`ValueError` before its `try` block, and the exception propagates to the
orchestrator; the repository's own unit test
(`test_agent_service_handles_tool_errors_gracefully`) expects a structured
result instead.  Evaluated here at the test's own input. -/
theorem c2_unknown_tool_name_raises :
    execute_tool ⟨[], none⟩ 1 "nonexistent_tool" {} 0
      = .raised "Tool 'nonexistent_tool' not found"
  ∧ ∀ r db, execute_tool ⟨[], none⟩ 1 "nonexistent_tool" {} 0 ≠ .returned r db := by
  refine ⟨by decide, ?_⟩
  intro r db h
  simp [execute_tool, mcpToolNames] at h

/-! ## C3 -/

/-- C3 counterexample: the success result of `list_tasks` carries no
`status` key at all, refuting the claim that every result of the six
handlers contains a `status` key valued "success" or "error". -/
theorem c3_counterexample_list_tasks_success_has_no_status :
    ¬ ((list_tasks_internal ⟨[], none⟩ 1).status = some "success"
        ∨ (list_tasks_internal ⟨[], none⟩ 1).status = some "error") := by
  decide

/-- The amended uniform-envelope property: the result has a `status` key
valued "success" or "error". -/
def hasStatus (r : ToolResult) : Prop :=
  r.status = some "success" ∨ r.status = some "error"

/-- C3 (amended): every result of `create_task`, `get_task`, `update_task`,
`mark_complete` and `delete_task` — success or error — carries a `status`
key valued "success" or "error", and so does every error result of
`list_tasks`; but the success result of `list_tasks` omits the `status`
key entirely. -/
theorem c3_result_envelope :
    (∀ db uid title desc now, hasStatus (create_task_internal db uid title desc now).1)
  ∧ (∀ db uid tid, hasStatus (get_task_internal db uid tid))
  ∧ (∀ db uid tid ot od now, hasStatus (update_task_internal db uid tid ot od now).1)
  ∧ (∀ db uid tid now, hasStatus (mark_complete_internal db uid tid now).1)
  ∧ (∀ db uid tid, hasStatus (delete_task_internal db uid tid).1)
  ∧ (∀ tasks e uid, (list_tasks_internal ⟨tasks, some e⟩ uid).status = some "error")
  ∧ (∀ tasks uid, (list_tasks_internal ⟨tasks, none⟩ uid).status = none) := by
  refine ⟨?_, ?_, ?_, ?_, ?_, ?_, ?_⟩
  · intro db uid title desc now
    rcases db with ⟨tasks, fl⟩
    by_cases h1 : (title = "" ∨ pyStrip title = "")
    · simp [create_task_internal, h1, hasStatus, errResult]
    · by_cases h2 : (pyStrip title).length > 200
      · simp [create_task_internal, h1, h2, hasStatus, errResult]
      · by_cases h3 : (desc ≠ "" ∧ desc.length > 2000)
        · simp [create_task_internal, h1, h2, h3, hasStatus, errResult]
        · cases fl with
          | none => simp [create_task_internal, h1, h2, h3, hasStatus, errResult]
          | some e => simp [create_task_internal, h1, h2, h3, hasStatus, errResult, dbError]
  · intro db uid tid
    unfold get_task_internal
    split
    · exact Or.inr rfl
    · rcases db with ⟨tasks, _ | e⟩
      · rcases h : tasks.find? (taskMatches tid uid) with _ | t
        · simp [h, hasStatus, errResult]
        · simp [h, hasStatus, errResult]
      · exact Or.inr rfl
  · intro db uid tid ot od now
    unfold update_task_internal
    rcases hv : update_validate ot od with _ | err
    · rcases db with ⟨tasks, _ | e⟩
      · rcases h : tasks.find? (taskMatches tid uid) with _ | t
        · simp [hv, h, hasStatus, errResult]
        · simp [hv, h, hasStatus, errResult]
      · simp [hv, hasStatus, dbError, errResult]
    · rcases update_validate_some hv with ⟨msg, rfl⟩
      simp [hv, hasStatus, errResult]
  · intro db uid tid now
    unfold mark_complete_internal
    rcases db with ⟨tasks, _ | e⟩
    · rcases h : tasks.find? (taskMatches tid uid) with _ | t
      · simp [h, hasStatus, errResult]
      · simp [h, hasStatus, errResult]
    · exact Or.inr rfl
  · intro db uid tid
    unfold delete_task_internal
    rcases db with ⟨tasks, _ | e⟩
    · rcases h : tasks.find? (taskMatches tid uid) with _ | t
      · simp [h, hasStatus, errResult]
      · simp [h, hasStatus, errResult]
    · exact Or.inr rfl
  · intro tasks e uid
    rfl
  · intro tasks uid
    rfl

/-! ## C4 -/

/-- C4 counterexample: on a store failure whose exception text contains an
SQL fragment and a driver class name, the user-visible error message of
`create_task` embeds that text verbatim after the "Database error: "
prefix — it is not a generic string. -/
theorem c4_counterexample_db_error_embeds_exception :
    ((create_task_internal
        ⟨[], some "(sqlite3.OperationalError) no such table: tasks"⟩
        1 "Buy milk" "" 0).1).error
      = some ("Database error: " ++ "(sqlite3.OperationalError) no such table: tasks") := by
  decide

/-- C4 (amended): a store failure inside any of the six tool handlers is
reported as a status-"error" result whose message is the string
"Database error: " followed by the underlying exception's text — the
exception text is embedded, not discarded.  (Validation and not-found
paths use fixed messages.) -/
theorem c4_store_failure_reporting (tasks : List Task) (e : String)
    (uid : Nat) (tid : Int) (now : Nat) (title desc : String)
    (ot od : Option String)
    (ht : ¬ pyStrip title = "") (ht2 : (pyStrip title).length ≤ 200)
    (hd : desc.length ≤ 2000) (hv : update_validate ot od = none)
    (hpos : 0 < tid) :
    (create_task_internal ⟨tasks, some e⟩ uid title desc now).1 = dbError e
  ∧ get_task_internal ⟨tasks, some e⟩ uid tid = dbError e
  ∧ (update_task_internal ⟨tasks, some e⟩ uid tid ot od now).1 = dbError e
  ∧ (mark_complete_internal ⟨tasks, some e⟩ uid tid now).1 = dbError e
  ∧ (delete_task_internal ⟨tasks, some e⟩ uid tid).1 = dbError e
  ∧ (list_tasks_internal ⟨tasks, some e⟩ uid).error = some ("Database error: " ++ e)
  ∧ dbError e = { status := some "error", error := some ("Database error: " ++ e) } := by
  have htitle : ¬ (title = "" ∨ pyStrip title = "") := by
    rintro (rfl | h)
    · exact ht rfl
    · exact ht h
  refine ⟨?_, ?_, ?_, rfl, rfl, rfl, rfl⟩
  · unfold create_task_internal
    rw [if_neg htitle, if_neg (by omega), if_neg (by rintro ⟨-, h⟩; omega)]
  · unfold get_task_internal
    rw [if_neg (by omega)]
  · unfold update_task_internal
    rw [hv]

/-- Witness for C4 at a concrete store failure. -/
theorem c4_store_failure_reporting_witness :
    (create_task_internal ⟨[], some "boom"⟩ 1 "t" "" 0).1 = dbError "boom"
  ∧ get_task_internal ⟨[], some "boom"⟩ 1 1 = dbError "boom"
  ∧ (update_task_internal ⟨[], some "boom"⟩ 1 1 (some "x") none 0).1 = dbError "boom"
  ∧ (mark_complete_internal ⟨[], some "boom"⟩ 1 1 0).1 = dbError "boom"
  ∧ (delete_task_internal ⟨[], some "boom"⟩ 1 1).1 = dbError "boom"
  ∧ (list_tasks_internal ⟨[], some "boom"⟩ 1).error = some ("Database error: " ++ "boom")
  ∧ dbError "boom" = { status := some "error", error := some ("Database error: " ++ "boom") } :=
  c4_store_failure_reporting [] "boom" 1 1 0 "t" "" (some "x") none
    (by decide) (by decide) (by decide) (by decide) (by decide)


/-! ## C5 -/

theorem le_maxSeq {m : Message} {l : List Message} (hm : m ∈ l) :
    m.sequence_number ≤ maxSeq l := by
  induction l with
  | nil => cases hm
  | cons u us ih =>
    rcases List.mem_cons.mp hm with rfl | h
    · exact le_max_left _ _
    · exact le_trans (ih h) (le_max_right _ _)

/-- C5 counterexample: in a conversation (id 7) whose first message
(sequence 1) has been soft-deleted while its second (sequence 2) has not,
the chat endpoint assigns sequence 2 — not (max existing)+1 = 3 as the
claim states — and after the turn the non-deleted messages carry the
sequence numbers [2, 2, 3]: a duplicate, not the contiguous 1..N the claim
asserts even under soft deletion. -/
theorem c5_counterexample_soft_delete_breaks_numbering :
    chatNextSequenceNumber
        [⟨1, 7, .user, "a", 1, 0, some 10⟩, ⟨2, 7, .assistant, "b", 2, 1, none⟩] 7 = 2
  ∧ getNextSequenceNumber
        [⟨1, 7, .user, "a", 1, 0, some 10⟩, ⟨2, 7, .assistant, "b", 2, 1, none⟩] 7 = 3
  ∧ seqNumbers (chatTurnPersist
        [⟨1, 7, .user, "a", 1, 0, some 10⟩, ⟨2, 7, .assistant, "b", 2, 1, none⟩]
        7 "hi" "ok" 3 4 2 3) 7 = [2, 2, 3] := by
  decide

/-- C5 (amended): `ConversationService._get_next_sequence_number` does
assign (max existing sequence in the conversation)+1, defaulting to 1 when
the conversation has no messages — every new number strictly exceeds every
existing one.  The chat endpoint, however, assigns (count of non-deleted
messages)+1 to the user message and that plus one to the assistant
message; therefore, as long as no message of the conversation has been
soft-deleted, the non-deleted messages carry exactly the contiguous
sequence numbers 1..N and a chat turn extends them to 1..N+2 — but with
soft-deleted messages present the endpoint can assign duplicates (see the
counterexample). -/
theorem c5_sequence_numbering (msgs : List Message) (cid : Nat) (N : Nat)
    (uc ac : String) (mid1 mid2 t1 t2 : Nat)
    (hseq : seqNumbers msgs cid = (List.range N).map (fun i => i + 1)) :
    (∀ m ∈ inConversation msgs cid,
        m.sequence_number < getNextSequenceNumber msgs cid)
  ∧ (inConversation msgs cid = [] → getNextSequenceNumber msgs cid = 1)
  ∧ seqNumbers (chatTurnPersist msgs cid uc ac mid1 mid2 t1 t2) cid
      = (List.range (N + 2)).map (fun i => i + 1) := by
  refine ⟨?_, ?_, ?_⟩
  · intro m hm
    have := le_maxSeq hm
    unfold getNextSequenceNumber
    omega
  · intro h
    simp [getNextSequenceNumber, h, maxSeq]
  · have hlen : (List.filter
        (fun m => m.conversation_id == cid && m.deleted_at == none) msgs).length = N := by
      have h := congrArg List.length hseq
      simpa [seqNumbers, nonDeleted] using h
    have hr : (List.range (N + 2)).map (fun i => i + 1)
        = (List.range N).map (fun i => i + 1) ++ [N + 1, N + 2] := by
      rw [show N + 2 = (N + 1) + 1 from rfl, List.range_succ, List.range_succ]
      simp
    simp only [seqNumbers, nonDeleted] at hseq
    simp only [chatTurnPersist, seqNumbers, nonDeleted, chatNextSequenceNumber,
      List.filter_append, List.map_append, hr]
    rw [hseq]
    simp [hlen]

/-- Witness for C5 on a conversation holding the contiguous messages 1, 2. -/
theorem c5_sequence_numbering_witness :
    (∀ m ∈ inConversation
        [⟨1, 7, .user, "a", 1, 0, none⟩, ⟨2, 7, .assistant, "b", 2, 1, none⟩] 7,
        m.sequence_number < getNextSequenceNumber
          [⟨1, 7, .user, "a", 1, 0, none⟩, ⟨2, 7, .assistant, "b", 2, 1, none⟩] 7)
  ∧ (inConversation
        [⟨1, 7, .user, "a", 1, 0, none⟩, ⟨2, 7, .assistant, "b", 2, 1, none⟩] 7 = [] →
      getNextSequenceNumber
        [⟨1, 7, .user, "a", 1, 0, none⟩, ⟨2, 7, .assistant, "b", 2, 1, none⟩] 7 = 1)
  ∧ seqNumbers (chatTurnPersist
        [⟨1, 7, .user, "a", 1, 0, none⟩, ⟨2, 7, .assistant, "b", 2, 1, none⟩]
        7 "hi" "ok" 3 4 2 3) 7
      = (List.range (2 + 2)).map (fun i => i + 1) :=
  c5_sequence_numbering
    [⟨1, 7, .user, "a", 1, 0, none⟩, ⟨2, 7, .assistant, "b", 2, 1, none⟩]
    7 2 "hi" "ok" 3 4 2 3 (by decide)

/-! ## C8 -/

/-- C8: the length boundaries.  With `tA` a title of trimmed length
exactly 200, `tB` of trimmed length 201, `dA` a description of length
exactly 2000 and `dB` of length 2001: `create_task` accepts `tA` and `dA`
(status "success") and rejects `tB` and `dB` with the corresponding
length-violation errors, leaving the store untouched; `update_task`
enforces the same 200/201 and 2000/2001 boundaries on whichever of title
and description it is given. -/
theorem c8_length_boundaries (db : DBState) (uid : Nat) (tid : Int)
    (tA tB dA dB : String) (now : Nat) (t : Task)
    (hok : db.failure = none)
    (hfind : db.tasks.find? (taskMatches tid uid) = some t)
    (hA : (pyStrip tA).length = 200)
    (hB : (pyStrip tB).length = 201)
    (hdA : dA.length = 2000)
    (hdB : dB.length = 2001) :
    ((create_task_internal db uid tA "" now).1).status = some "success"
  ∧ create_task_internal db uid tB dA now = (errResult "Title exceeds 200 characters", db)
  ∧ ((create_task_internal db uid tA dA now).1).status = some "success"
  ∧ create_task_internal db uid tA dB now
      = (errResult "Description exceeds 2000 characters", db)
  ∧ update_validate (some tA) none = none
  ∧ ((update_task_internal db uid tid (some tA) none now).1).status = some "success"
  ∧ update_task_internal db uid tid (some tB) (some dA) now
      = (errResult "Title exceeds 200 characters", db)
  ∧ update_validate none (some dA) = none
  ∧ ((update_task_internal db uid tid none (some dA) now).1).status = some "success"
  ∧ update_task_internal db uid tid none (some dB) now
      = (errResult "Description exceeds 2000 characters", db) := by
  obtain ⟨tasks, fl⟩ := db
  cases hok
  have hlen0 : ("" : String).length = 0 := rfl
  have hnzA : ¬ pyStrip tA = "" := by
    intro h
    rw [h, hlen0] at hA
    exact absurd hA (by decide)
  have hnzB : ¬ pyStrip tB = "" := by
    intro h
    rw [h, hlen0] at hB
    exact absurd hB (by decide)
  have hneA : ¬ (tA = "" ∨ pyStrip tA = "") := by
    rintro (rfl | h)
    · exact hnzA (by decide)
    · exact hnzA h
  have hneB : ¬ (tB = "" ∨ pyStrip tB = "") := by
    rintro (rfl | h)
    · exact hnzB (by decide)
    · exact hnzB h
  have hvA : update_validate (some tA) none = none := by
    simp [update_validate, hnzA, hA]
  have hvdA : update_validate none (some dA) = none := by
    simp [update_validate, hdA]
  refine ⟨?_, ?_, ?_, ?_, hvA, ?_, ?_, hvdA, ?_, ?_⟩
  · simp [create_task_internal, hneA, hA]
  · simp [create_task_internal, hneB, hB]
  · have h3 : ¬ (dA ≠ "" ∧ dA.length > 2000) := by
      rintro ⟨-, hgt⟩
      omega
    simp [create_task_internal, hneA, hA, h3]
  · simp [create_task_internal, hneA, hA, hdB]
    intro h
    rw [h, hlen0] at hdB
    exact absurd hdB (by decide)
  · simp [update_task_internal, hvA, hfind]
  · have hv : update_validate (some tB) (some dA) = some (errResult "Title exceeds 200 characters") := by
      simp [update_validate, hnzB, hB]
    simp [update_task_internal, hv]
  · simp [update_task_internal, hvdA, hfind]
  · have hv : update_validate none (some dB) = some (errResult "Description exceeds 2000 characters") := by
      simp [update_validate, hdB]
    simp [update_task_internal, hv]

/-- Witness for C8 at concrete 200/201/2000/2001-character strings. -/
theorem c8_length_boundaries_witness :
    ((create_task_internal ⟨[⟨1, "x", none, false, 1, 0, 0⟩], none⟩ 1
        (String.mk (List.replicate 200 'a')) "" 0).1).status = some "success"
  ∧ create_task_internal ⟨[⟨1, "x", none, false, 1, 0, 0⟩], none⟩ 1
        (String.mk (List.replicate 201 'a')) (String.mk (List.replicate 2000 'd')) 0
      = (errResult "Title exceeds 200 characters", ⟨[⟨1, "x", none, false, 1, 0, 0⟩], none⟩)
  ∧ ((create_task_internal ⟨[⟨1, "x", none, false, 1, 0, 0⟩], none⟩ 1
        (String.mk (List.replicate 200 'a')) (String.mk (List.replicate 2000 'd')) 0).1).status
      = some "success"
  ∧ create_task_internal ⟨[⟨1, "x", none, false, 1, 0, 0⟩], none⟩ 1
        (String.mk (List.replicate 200 'a')) (String.mk (List.replicate 2001 'd')) 0
      = (errResult "Description exceeds 2000 characters", ⟨[⟨1, "x", none, false, 1, 0, 0⟩], none⟩)
  ∧ update_validate (some (String.mk (List.replicate 200 'a'))) none = none
  ∧ ((update_task_internal ⟨[⟨1, "x", none, false, 1, 0, 0⟩], none⟩ 1 1
        (some (String.mk (List.replicate 200 'a'))) none 0).1).status = some "success"
  ∧ update_task_internal ⟨[⟨1, "x", none, false, 1, 0, 0⟩], none⟩ 1 1
        (some (String.mk (List.replicate 201 'a'))) (some (String.mk (List.replicate 2000 'd'))) 0
      = (errResult "Title exceeds 200 characters", ⟨[⟨1, "x", none, false, 1, 0, 0⟩], none⟩)
  ∧ update_validate none (some (String.mk (List.replicate 2000 'd'))) = none
  ∧ ((update_task_internal ⟨[⟨1, "x", none, false, 1, 0, 0⟩], none⟩ 1 1
        none (some (String.mk (List.replicate 2000 'd'))) 0).1).status = some "success"
  ∧ update_task_internal ⟨[⟨1, "x", none, false, 1, 0, 0⟩], none⟩ 1 1
        none (some (String.mk (List.replicate 2001 'd'))) 0
      = (errResult "Description exceeds 2000 characters", ⟨[⟨1, "x", none, false, 1, 0, 0⟩], none⟩) :=
  c8_length_boundaries ⟨[⟨1, "x", none, false, 1, 0, 0⟩], none⟩ 1 1
    (String.mk (List.replicate 200 'a')) (String.mk (List.replicate 201 'a'))
    (String.mk (List.replicate 2000 'd')) (String.mk (List.replicate 2001 'd'))
    0 ⟨1, "x", none, false, 1, 0, 0⟩ rfl (by decide)
    (by rw [pyStrip_replicate 'a' (by decide), length_mk, List.length_replicate])
    (by rw [pyStrip_replicate 'a' (by decide), length_mk, List.length_replicate])
    (by rw [length_mk, List.length_replicate])
    (by rw [length_mk, List.length_replicate])

/-! ## C9 -/

/-- C9 (code bug): the streaming endpoint never reaches the chunking or
terminal-metadata path.  Its generator instantiates `CohereAgentService`,
a name `src/backend/src/api/chat.py` never imports, so every valid
streaming request raises `NameError`, the generator's `except` emits the
single event `\x7b"error": "name 'CohereAgentService' is not defined",
"done": true\x7d` — no `\x7bcontent, done:false\x7d` chunks, no terminal
metadata event — and only the user message (not the assistant message) is
persisted. -/
theorem c9_stream_emits_single_error_event (msgs : List Message) (cid : Nat)
    (uc : String) (resp : AgentResult) (mid1 mid2 t1 t2 : Nat) :
    (chat_stream_event_generator msgs cid uc resp mid1 mid2 t1 t2).1
      = [{ error := some "name 'CohereAgentService' is not defined", done := true }]
  ∧ (chat_stream_event_generator msgs cid uc resp mid1 mid2 t1 t2).2
      = msgs ++ [⟨mid1, cid, .user, uc, chatNextSequenceNumber msgs cid, t1, none⟩] :=
  ⟨rfl, rfl⟩

end Taskflow
